import Mathlib

/-!
Shallow embedding of the `iroha_wasm_pack` build-orchestration CLI
(`src/main.rs`) and proofs about its build pipeline.

Filesystem reads, child-process invocations and the external toml parser
are modelled as explicit parameters (oracles) of the embedded functions;
everything the Rust code itself computes is translated directly.
-/

namespace IrohaWasmPack

/-- Outcome of running a piece of Rust code: it returns a value, returns an
error (`failure::Error`, carrying its display message), or panics
(e.g. `Option::unwrap` on `None`). -/
inductive Outcome (α : Type) where
  | ok (a : α)
  | err (msg : String)
  | panicked
  deriving Repr, DecidableEq

/-- True exactly when the outcome is a returned error value. -/
def Outcome.isErr : Outcome α → Bool
  | .err _ => true
  | _ => false

/-! ### String helpers (structural, so that `decide` can evaluate them) -/

/-- Boolean prefix test on character lists. -/
def isPrefixB : List Char → List Char → Bool
  | [], _ => true
  | _ :: _, [] => false
  | a :: as, b :: bs => a == b && isPrefixB as bs

/-- Boolean substring test: does `pat` occur (contiguously) in the list? -/
def containsSub (pat : List Char) : List Char → Bool
  | [] => isPrefixB pat []
  | c :: rest => isPrefixB pat (c :: rest) || containsSub pat rest

/-- Embedding of Rust's `str::contains` on a literal pattern. -/
def strContainsB (s pat : String) : Bool :=
  containsSub pat.data s.data

/-- Embedding of Rust's `str::split('.')`: split on every dot, keeping
empty pieces. -/
def splitDotAux : List Char → List Char → List String
  | [], acc => [String.mk acc.reverse]
  | c :: rest, acc =>
    if c = '.' then String.mk acc.reverse :: splitDotAux rest []
    else splitDotAux rest (c :: acc)

/-- Split a string at every dot, as Rust's `split('.')` iterator yields. -/
def splitDot (s : String) : List String := splitDotAux s.data []

theorem str_data_append : ∀ s t : String, (s ++ t).data = s.data ++ t.data := by
  intro ⟨a⟩ ⟨b⟩
  rfl

theorem isPrefixB_append (p : List Char) :
    ∀ s t, isPrefixB p s = true → isPrefixB p (s ++ t) = true := by
  induction p with
  | nil => intro s t _; rfl
  | cons a as ih =>
    intro s t h
    cases s with
    | nil => simp [isPrefixB] at h
    | cons b bs =>
      simp only [isPrefixB, Bool.and_eq_true] at h ⊢
      exact ⟨h.1, ih bs t h.2⟩

theorem isPrefixB_self_append : ∀ p t : List Char, isPrefixB p (p ++ t) = true := by
  intro p t
  induction p with
  | nil => rfl
  | cons a as ih => simp [isPrefixB, ih]

theorem containsSub_append_left (p : List Char) :
    ∀ s t, containsSub p s = true → containsSub p (s ++ t) = true := by
  intro s
  induction s with
  | nil =>
    intro t h
    simp only [containsSub] at h
    cases p with
    | nil =>
      cases t with
      | nil => rfl
      | cons c cs => simp [containsSub, isPrefixB]
    | cons a as => simp [isPrefixB] at h
  | cons c cs ih =>
    intro t h
    simp only [containsSub, Bool.or_eq_true] at h ⊢
    cases h with
    | inl h => exact Or.inl (isPrefixB_append p (c :: cs) t h)
    | inr h => exact Or.inr (ih t h)

theorem containsSub_suffix : ∀ s p : List Char, containsSub p (s ++ p) = true := by
  intro s p
  induction s with
  | nil =>
    cases p with
    | nil => rfl
    | cons c cs =>
      simp only [List.nil_append, containsSub, Bool.or_eq_true]
      exact Or.inl (by simpa using isPrefixB_self_append (c :: cs) [])
  | cons c cs ih =>
    simp only [List.cons_append, containsSub, Bool.or_eq_true]
    exact Or.inr ih

/-! ### Data model (`Cargo.toml` view and build context) -/

/-- The `[package]` table view: `struct Package { name: String }`. -/
structure Package where
  name : String
  deriving Repr, DecidableEq

/-- The `[lib]` table view: `struct Lib { crate_type: Vec<String> }`
(deserialized from either `crate-type` or `crate_type`). -/
structure Lib where
  crate_type : List String
  deriving Repr, DecidableEq

/-- `struct CargoConfig { package: Package, lib: Lib }`. -/
structure CargoConfig where
  package : Package
  lib : Lib
  deriving Repr, DecidableEq

/-- `struct BuildContext { crate_type, wasm_in, wasm_out }`. Paths are
modelled as strings with `/`-joined components. -/
structure BuildContext where
  crate_type : String
  wasm_in : String
  wasm_out : String
  deriving Repr, DecidableEq

/-- `PathBuf::join` for the relative component literals used here. -/
def pjoin (a b : String) : String := a ++ "/" ++ b

/-- `args.extra_options.iter().any(|x| x == "--release")`. -/
def isRelease (extra_options : List String) : Bool :=
  extra_options.any (fun x => x == "--release")

/-- `let profile = if is_release { "release" } else { "debug" };` -/
def profileOf (extra_options : List String) : String :=
  if isRelease extra_options then "release" else "debug"

/-- `root.join("target").join("wasm32-unknown-unknown").join(profile)`. -/
def wasmFolder (root : String) (extra_options : List String) : String :=
  pjoin (pjoin (pjoin root "target") "wasm32-unknown-unknown") (profileOf extra_options)

/-- `BuildContext::new`, after the project root has been located and the
manifest parsed (both are separate fallible functions, embedded below);
this function receives their successful results. `crate_type` is taken by
`config.lib.crate_type.first().unwrap()`, which panics on an empty list. -/
def buildContextNew (root : String) (config : CargoConfig) (extra_options : List String) :
    Outcome BuildContext :=
  let wasm_folder := wasmFolder root extra_options
  let wasm_name := config.package.name
  let wasm_in := pjoin wasm_folder (wasm_name ++ ".wasm")
  let wasm_out := pjoin wasm_folder (wasm_name ++ "_optimized.wasm")
  match config.lib.crate_type.head? with
  | none => .panicked
  | some t => .ok { crate_type := t, wasm_in := wasm_in, wasm_out := wasm_out }

/-! ### Step pipeline executor -/

/-- Instrumented embedding of the `for step in [...] { step(&self, &ctx)? }`
loop in `BuildArgs::run` (and the analogous loop in `NewArgs::run`): run the
steps in list order against the shared context, stopping at the first error.
Besides the loop's result it returns how many steps were invoked, so that
fail-fast behaviour is observable. -/
def runStepsTrace {α ε : Type} : List (α → Except ε Unit) → α → Except ε Unit × Nat
  | [], _ => (.ok (), 0)
  | s :: rest, ctx =>
    match s ctx with
    | .error e => (.error e, 1)
    | .ok _ =>
      let r := runStepsTrace rest ctx
      (r.1, r.2 + 1)

/-! ### Project locator -/

/-- Error message of `root` when no `Cargo.toml` is found. -/
def cargoNotFoundMsg : String :=
  "No Cargo.toml found from current dir or parent, you should init a project by `iroha_wasm_pack new` first"

/-- `fn root(mut cur: PathBuf)`: walk up from the starting directory until a
directory containing `Cargo.toml` is found. A directory is modelled as its
component list with the deepest component first, so `PathBuf::pop` is
`List.tail` and `[]` is the filesystem root; `hasManifest` is the
`cur.join("Cargo.toml").exists()` oracle. -/
def root (hasManifest : List String → Bool) : List String → Except String (List String)
  | [] => if hasManifest [] then .ok [] else .error cargoNotFoundMsg
  | c :: parent =>
    if hasManifest (c :: parent) then .ok (c :: parent)
    else root hasManifest parent

/-! ### Step 1: rustc version check -/

/-- Error message of `rustc_minor_version` when the version output has an
unexpected shape. -/
def rustcVersionErrMsg : String :=
  "We can't figure out what your Rust version is- which means you might not have Rust installed. Please install Rust version 1.30.0 or higher."

/-- Rust's `str::parse::<u32>()`: an optional leading `+`, then one or more
ASCII digits, and the value must fit in 32 bits. -/
def rustParseU32 (s : String) : Option Nat :=
  let cs := match s.data with
    | '+' :: rest => rest
    | cs => cs
  if cs.isEmpty then none
  else if cs.all (fun c => c.isDigit) then
    let v := cs.foldl (fun acc c => acc * 10 + (c.toNat - 48)) 0
    if v < 4294967296 then some v else none
  else none

/-- `fn rustc_minor_version()`: `query` is the result of reading the stdout
of `rustc --version` (`?` propagates its failure). The stdout is split on
dots; the first piece must be `rustc 1`, and the second piece is parsed as
the minor version (a parse failure is returned via `?` as the
`ParseIntError` display text). Any other shape yields the fixed message. -/
def rustc_minor_version (query : Except String String) : Except String Nat :=
  match query with
  | .error e => .error e
  | .ok stdout =>
    match splitDot stdout with
    | p0 :: p1 :: _ =>
      if p0 = "rustc 1" then
        match rustParseU32 p1 with
        | some n => .ok n
        | none => .error "invalid digit found in string"
      else .error rustcVersionErrMsg
    | _ => .error rustcVersionErrMsg

/-- Error message of `step_check_rustc_version` for an out-of-date minor
version. -/
def rustcTooOldMsg (minor : Nat) : String :=
  "Your version of Rust, '1." ++ toString minor ++ "', is not supported. Please install Rust version 1.30.0 or higher."

/-- `step_check_rustc_version`: ensure `rustc` is present and `>= 1.30.0`. -/
def step_check_rustc_version (query : Except String String) : Except String Unit :=
  match rustc_minor_version query with
  | .error e => .error e
  | .ok local_minor_version =>
    if local_minor_version < 30 then .error (rustcTooOldMsg local_minor_version)
    else .ok ()

/-! ### Step 2: crate-type check -/

/-- Error message of `step_check_crate_config`. -/
def crateTypeErrMsg : String :=
  "crate-type must be cdylib to compile to wasm32-unknown-unknown. Add the following to your Cargo.toml file:\n\n[lib]\ncrate-type = [\"cdylib\"]"

/-- `step_check_crate_config`: the context's crate type must be `cdylib`. -/
def step_check_crate_config (ctx : BuildContext) : Except String Unit :=
  if ctx.crate_type == "cdylib" then .ok () else .error crateTypeErrMsg

/-! ### Step 3: wasm target availability check -/

/-- Error message of `rustup_add_wasm_target`, wrapping the command error. -/
def rustupFailMsg (e : String) : String :=
  "Adding the wasm32-unknown-unknown target with rustup failed, error = " ++ e

/-- `fn rustup_add_wasm_target()`: `cmdResult` is the result of running
`rustup target add wasm32-unknown-unknown`; a failure is wrapped in the
fixed message. -/
def rustup_add_wasm_target (cmdResult : Except String Unit) : Except String Unit :=
  match cmdResult with
  | .error err => .error (rustupFailMsg err)
  | .ok _ => .ok ()

/-- `step_check_for_wasm_target`, given a successfully queried sysroot:
`targetPresent` is the `is_wasm32_target_in_sysroot` filesystem oracle
(`sysroot/lib/rustlib/wasm32-unknown-unknown` exists) and `cmdResult` the
would-be result of the `rustup` invocation. The second component records
whether the installer was actually invoked. -/
def step_check_for_wasm_target (sysroot : String) (targetPresent : Bool)
    (cmdResult : Except String Unit) : Except String Unit × Bool :=
  if targetPresent then (.ok (), false)
  else
    if strContainsB sysroot "rustup" then (rustup_add_wasm_target cmdResult, true)
    else (.ok (), false)

/-! ### Step 6: output size check -/

/-- Error message of `step_iroha_binary_size_check`. -/
def sizeErrMsg (len : Nat) : String :=
  "Wasm binary too large, max size is 4194304, but got " ++ toString len

/-- `step_iroha_binary_size_check`: `metaLen` is the result of
`fs::metadata(&ctx.wasm_out)?.len()` (`?` propagates a metadata failure);
the artifact byte length must not exceed 4194304. -/
def step_iroha_binary_size_check (metaLen : Except String Nat) : Except String Unit :=
  match metaLen with
  | .error e => .error e
  | .ok len =>
    if len > 4194304 then .error (sizeErrMsg len) else .ok ()

/-! ### Manifest reader -/

/-- `fn pasre_cargo_config(root: &PathBuf)` (the source's spelling):
`pathIsUtf8` models `path.to_str()` succeeding (`.unwrap()` panics
otherwise); `readResult` models `fs::read_to_string` (`none` is any read
failure, including non-UTF-8 content, and `.unwrap()` panics on it);
`tomlParse` is the external `toml::from_str`, whose error is wrapped in the
returned message. -/
def pasre_cargo_config (pathIsUtf8 : Bool) (readResult : Option String)
    (tomlParse : String → Except String CargoConfig) : Outcome CargoConfig :=
  if pathIsUtf8 then
    match readResult with
    | none => .panicked
    | some cargo_xml =>
      match tomlParse cargo_xml with
      | .ok config => .ok config
      | .error err => .err ("parse cargo toml failed, error = " ++ err)
  else .panicked

/-! ### General string lemmas used by the claim proofs -/

theorem str_append_assoc : ∀ a b c : String, (a ++ b) ++ c = a ++ (b ++ c) := by
  intro ⟨a⟩ ⟨b⟩ ⟨c⟩
  exact congrArg String.mk (List.append_assoc a b c)

/-! ### C1: empty crate-type list -/

/-- A manifest view declaring zero library kinds. -/
def cfgEmptyLib : CargoConfig := { package := { name := "demo" }, lib := { crate_type := [] } }

/-- C1 counterexample: on a manifest with an empty crate-type list,
`BuildContext::new` does not fail with an error value at all — it panics
(`first().unwrap()` on an empty `Vec`), so the claimed `MissingLibraryKind`
error is never produced. -/
theorem c1_counterexample :
    buildContextNew "" cfgEmptyLib [] = .panicked
    ∧ (buildContextNew "" cfgEmptyLib []).isErr = false :=
  ⟨rfl, rfl⟩

/-- C1 (amended): for every manifest that declares zero library kinds,
`BuildContext::new` panics (via `unwrap` on `None`) rather than returning
any error or succeeding. -/
theorem c1_empty_crate_type_panics (r : String) (cfg : CargoConfig) (extra : List String)
    (h : cfg.lib.crate_type = []) :
    buildContextNew r cfg extra = .panicked := by
  simp [buildContextNew, h]

/-- C1 witness: the amended claim at a concrete manifest. -/
theorem c1_witness : buildContextNew "" cfgEmptyLib [] = .panicked :=
  c1_empty_crate_type_panics "" cfgEmptyLib [] rfl

/-! ### C2: fail-fast step pipeline -/

/-- C2: the pipeline executor runs steps strictly in list order; if the
steps before index `k` succeed and step `k` fails, exactly the first `k+1`
steps are invoked and the result is step `k`'s error (so all later steps
are never invoked); if every step succeeds, all steps run and the pipeline
reports success. -/
theorem c2_pipeline_fail_fast :
    (∀ (α ε : Type) (steps : List (α → Except ε Unit)) (ctx : α) (k : Nat)
        (hk : k < steps.length) (e : ε),
        steps.get ⟨k, hk⟩ ctx = .error e →
        (∀ i (hi : i < k), steps.get ⟨i, Nat.lt_trans hi hk⟩ ctx = .ok ()) →
        runStepsTrace steps ctx = (.error e, k + 1))
    ∧ (∀ (α ε : Type) (steps : List (α → Except ε Unit)) (ctx : α),
        (∀ s ∈ steps, s ctx = .ok ()) →
        runStepsTrace steps ctx = (.ok (), steps.length)) := by
  constructor
  · intro α ε steps ctx
    induction steps with
    | nil => intro k hk; exact absurd hk (by simp)
    | cons s rest ih =>
      intro k hk e hfail hpre
      cases k with
      | zero =>
        have hs : s ctx = .error e := hfail
        simp [runStepsTrace, hs]
      | succ k2 =>
        have hs : s ctx = .ok () := hpre 0 (Nat.succ_pos k2)
        have hk2 : k2 < rest.length := Nat.lt_of_succ_lt_succ hk
        have hfail2 : rest.get ⟨k2, hk2⟩ ctx = .error e := hfail
        have hpre2 : ∀ i (hi : i < k2), rest.get ⟨i, Nat.lt_trans hi hk2⟩ ctx = .ok () := by
          intro i hi
          exact hpre (i + 1) (Nat.succ_lt_succ hi)
        have hr := ih k2 hk2 e hfail2 hpre2
        simp [runStepsTrace, hs, hr]
  · intro α ε steps ctx
    induction steps with
    | nil => intro _; rfl
    | cons s rest ih =>
      intro h
      have hs : s ctx = .ok () := h s (by simp)
      have hr := ih (fun t ht => h t (by simp [ht]))
      simp [runStepsTrace, hs, hr]

/-- Six instrumented fake steps whose second step fails. -/
def fakeSteps : List (Unit → Except String Unit) :=
  [fun _ => .ok (), fun _ => .error "boom", fun _ => .ok (),
   fun _ => .ok (), fun _ => .ok (), fun _ => .ok ()]

/-- C2 witness: with six steps where step 2 fails, only two steps are
invoked (steps 3 through 6 never run) and the pipeline returns that
failure. -/
theorem c2_witness : runStepsTrace fakeSteps () = (.error "boom", 2) :=
  c2_pipeline_fail_fast.1 Unit String fakeSteps () 1 (by decide) "boom" rfl
    (by intro i hi; interval_cases i; rfl)

/-! ### C3: output-size check -/

/-- C3: the size check succeeds for every artifact of at most 4194304
bytes and fails for every strictly larger artifact, with a message
reporting both the fixed limit and the observed size. -/
theorem c3_size_check (len : Nat) :
    (len ≤ 4194304 → step_iroha_binary_size_check (.ok len) = .ok ())
    ∧ (4194304 < len →
        step_iroha_binary_size_check (.ok len) = .error (sizeErrMsg len)
        ∧ strContainsB (sizeErrMsg len) "4194304" = true
        ∧ strContainsB (sizeErrMsg len) (toString len) = true) := by
  constructor
  · intro h
    simp [step_iroha_binary_size_check, Nat.not_lt.mpr h]
  · intro h
    refine ⟨by simp [step_iroha_binary_size_check, h], ?_, ?_⟩
    · unfold strContainsB sizeErrMsg
      rw [str_data_append]
      exact containsSub_append_left _ _ _ (by decide)
    · unfold strContainsB sizeErrMsg
      rw [str_data_append]
      exact containsSub_suffix _ _

/-- C3 witness: exactly 4194304 bytes passes; 4194305 bytes fails with a
message reporting both numbers. -/
theorem c3_witness :
    step_iroha_binary_size_check (.ok 4194304) = .ok ()
    ∧ (step_iroha_binary_size_check (.ok 4194305) = .error (sizeErrMsg 4194305)
       ∧ strContainsB (sizeErrMsg 4194305) "4194304" = true
       ∧ strContainsB (sizeErrMsg 4194305) (toString 4194305) = true) :=
  ⟨(c3_size_check 4194304).1 (by decide), (c3_size_check 4194305).2 (by decide)⟩

/-! ### C4: toolchain version check -/

/-- C4: whenever the version output parses with major 1 and minor `n`
(i.e. `rustc_minor_version` succeeds with `n`), the step succeeds exactly
when `n ≥ 30` and otherwise fails with the too-old message; concretely,
`1.25.0` fails and `1.30.0` passes; and any failure of the version query
itself, or any unparsable output, makes the step fail. -/
theorem c4_rustc_version_check :
    (∀ stdout n, rustc_minor_version (.ok stdout) = .ok n →
       (step_check_rustc_version (.ok stdout) = .ok () ↔ 30 ≤ n)
       ∧ (n < 30 → step_check_rustc_version (.ok stdout) = .error (rustcTooOldMsg n)))
    ∧ step_check_rustc_version (.ok "rustc 1.25.0 (abc 2018-01-01)") = .error (rustcTooOldMsg 25)
    ∧ step_check_rustc_version (.ok "rustc 1.30.0 (abc 2018-10-25)") = .ok ()
    ∧ (∀ e, step_check_rustc_version (.error e) = .error e)
    ∧ (∀ stdout e, rustc_minor_version (.ok stdout) = .error e →
        step_check_rustc_version (.ok stdout) = .error e) := by
  refine ⟨?_, rfl, rfl, fun e => rfl, ?_⟩
  · intro stdout n h
    constructor
    · simp only [step_check_rustc_version, h]
      split_ifs with h30 <;> simp <;> omega
    · intro hlt
      simp [step_check_rustc_version, h, hlt]
  · intro stdout e h
    simp [step_check_rustc_version, h]

/-- C4 witness: the general part of the claim applied at a toolchain
reporting version 1.31.0. -/
theorem c4_witness :
    (step_check_rustc_version (.ok "rustc 1.31.0 (abc 2018-12-06)") = .ok () ↔ 30 ≤ 31)
    ∧ (31 < 30 →
        step_check_rustc_version (.ok "rustc 1.31.0 (abc 2018-12-06)")
          = .error (rustcTooOldMsg 31)) :=
  c4_rustc_version_check.1 "rustc 1.31.0 (abc 2018-12-06)" 31 rfl

/-! ### C5: library-kind check -/

/-- C5: the crate-type check succeeds exactly when the context's library
kind is `cdylib`; every other kind fails with a message that contains the
exact manifest snippet to add. -/
theorem c5_crate_type_check (ctx : BuildContext) :
    (step_check_crate_config ctx = .ok () ↔ ctx.crate_type = "cdylib")
    ∧ (ctx.crate_type ≠ "cdylib" → step_check_crate_config ctx = .error crateTypeErrMsg)
    ∧ strContainsB crateTypeErrMsg "[lib]\ncrate-type = [\"cdylib\"]" = true := by
  refine ⟨?_, ?_, by decide⟩
  · by_cases hc : ctx.crate_type = "cdylib" <;> simp [step_check_crate_config, hc]
  · intro h
    simp [step_check_crate_config, h]

/-- A context whose library kind is `rlib`. -/
def ctxRlib : BuildContext := { crate_type := "rlib", wasm_in := "a", wasm_out := "b" }

/-- C5 witness: an `rlib` context fails the check with the fixed message. -/
theorem c5_witness : step_check_crate_config ctxRlib = .error crateTypeErrMsg :=
  (c5_crate_type_check ctxRlib).2.1 (by decide)

/-! ### C6: release-mode selection and build-output directory -/

/-- C6: release mode is selected exactly when `extra_options` contains the
literal token `--release`; the profile component is `release` or `debug`
accordingly, and the build-output directory is
`<root>/target/wasm32-unknown-unknown/<mode>`. -/
theorem c6_release_mode (r : String) (extra : List String) :
    (isRelease extra = true ↔ "--release" ∈ extra)
    ∧ profileOf extra = (if "--release" ∈ extra then "release" else "debug")
    ∧ wasmFolder r extra = r ++ "/target/wasm32-unknown-unknown/" ++ profileOf extra := by
  have hmem : isRelease extra = true ↔ "--release" ∈ extra := by
    simp [isRelease, List.any_eq_true]
  refine ⟨hmem, ?_, ?_⟩
  · by_cases h : "--release" ∈ extra
    · simp [profileOf, hmem.mpr h, h]
    · have hf : isRelease extra = false :=
        Bool.eq_false_iff.mpr (fun hc => h (hmem.mp hc))
      simp [profileOf, hf, h]
  · simp only [wasmFolder, pjoin, str_append_assoc]
    rfl

/-! ### C7: artifact paths are distinct and share a directory -/

/-- C7: whenever `BuildContext::new` succeeds, the input and output
artifact paths are distinct, and both are direct entries of the same
build-output directory `target/wasm32-unknown-unknown/<mode>` under the
project root, named `<package>.wasm` and `<package>_optimized.wasm`. -/
theorem c7_artifact_paths (r : String) (cfg : CargoConfig) (extra : List String)
    (ctx : BuildContext) (h : buildContextNew r cfg extra = .ok ctx) :
    ctx.wasm_in ≠ ctx.wasm_out
    ∧ ctx.wasm_in = pjoin (wasmFolder r extra) (cfg.package.name ++ ".wasm")
    ∧ ctx.wasm_out = pjoin (wasmFolder r extra) (cfg.package.name ++ "_optimized.wasm") := by
  simp only [buildContextNew] at h
  cases hh : cfg.lib.crate_type.head? with
  | none => rw [hh] at h; exact absurd h (by simp)
  | some t =>
    rw [hh] at h
    injection h with h2
    subst h2
    refine ⟨?_, rfl, rfl⟩
    intro heq
    have hlen := congrArg String.length heq
    simp [pjoin, String.length_append] at hlen
    exact absurd hlen (by decide)

/-- A well-formed manifest view for the witness. -/
def cfgDemo : CargoConfig := { package := { name := "demo" }, lib := { crate_type := ["cdylib"] } }

/-- The context `BuildContext::new` produces from `cfgDemo` in debug mode. -/
def ctxDemo : BuildContext :=
  { crate_type := "cdylib",
    wasm_in := "/proj/target/wasm32-unknown-unknown/debug/demo.wasm",
    wasm_out := "/proj/target/wasm32-unknown-unknown/debug/demo_optimized.wasm" }

/-- C7 witness: the invariant at a concrete successful construction. -/
theorem c7_witness :
    ctxDemo.wasm_in ≠ ctxDemo.wasm_out
    ∧ ctxDemo.wasm_in = pjoin (wasmFolder "/proj" []) (cfgDemo.package.name ++ ".wasm")
    ∧ ctxDemo.wasm_out = pjoin (wasmFolder "/proj" []) (cfgDemo.package.name ++ "_optimized.wasm") :=
  c7_artifact_paths "/proj" cfgDemo [] ctxDemo (by decide)

/-! ### C8: project locator -/

/-- C8: the locator returns the nearest ancestor of the starting directory
(the starting directory itself included, at any depth) that contains
`Cargo.toml` — i.e. a manifest-bearing ancestor of maximal depth; when no
ancestor up to the filesystem root contains one, it fails with the fixed
message, which instructs the user to run `iroha_wasm_pack new`.  Ancestors
are suffixes of the deepest-first component list. -/
theorem c8_root_locator (hm : List String → Bool) (start : List String) :
    (∀ d, root hm start = .ok d →
       hm d = true ∧ d <:+ start
       ∧ ∀ e, e <:+ start → hm e = true → e.length ≤ d.length)
    ∧ (∀ msg, root hm start = .error msg →
       msg = cargoNotFoundMsg ∧ ∀ e, e <:+ start → hm e = false)
    ∧ strContainsB cargoNotFoundMsg "iroha_wasm_pack new" = true := by
  refine ⟨?_, ?_, by decide⟩
  · induction start with
    | nil =>
      intro d hd
      by_cases h0 : hm [] = true
      · simp only [root, h0, if_true] at hd
        injection hd with hd2
        subst hd2
        refine ⟨h0, List.suffix_refl [], ?_⟩
        intro e he _
        exact List.IsSuffix.length_le he
      · simp [root, h0] at hd
    | cons a rest ih =>
      intro d hd
      by_cases hc : hm (a :: rest) = true
      · simp only [root, hc, if_true] at hd
        injection hd with hd2
        subst hd2
        refine ⟨hc, List.suffix_refl _, ?_⟩
        intro e he _
        exact List.IsSuffix.length_le he
      · simp only [root, hc, if_false, Bool.false_eq_true] at hd
        obtain ⟨h1, h2, h3⟩ := ih d hd
        refine ⟨h1, h2.trans (List.suffix_cons a rest), ?_⟩
        intro e he hme
        rcases List.suffix_cons_iff.mp he with he2 | he2
        · subst he2; exact absurd hme hc
        · exact h3 e he2 hme
  · induction start with
    | nil =>
      intro msg hmsg
      by_cases h0 : hm [] = true
      · simp [root, h0] at hmsg
      · simp only [root, h0, if_false, Bool.false_eq_true] at hmsg
        injection hmsg with hmsg2
        subst hmsg2
        refine ⟨rfl, ?_⟩
        intro e he
        rw [List.suffix_nil.mp he]
        exact Bool.eq_false_iff.mpr h0
    | cons a rest ih =>
      intro msg hmsg
      by_cases hc : hm (a :: rest) = true
      · simp [root, hc] at hmsg
      · simp only [root, hc, if_false, Bool.false_eq_true] at hmsg
        obtain ⟨h1, h2⟩ := ih msg hmsg
        refine ⟨h1, ?_⟩
        intro e he
        rcases List.suffix_cons_iff.mp he with he2 | he2
        · subst he2; exact Bool.eq_false_iff.mpr hc
        · exact h2 e he2

/-- A manifest-existence oracle: only `/proj` has a `Cargo.toml`. -/
def hmEx : List String → Bool := fun l => l == ["proj"]

/-- C8 witness: starting from `/proj/sub`, the locator returns `/proj`,
which holds a manifest, is an ancestor, and is the nearest such. -/
theorem c8_witness :
    hmEx ["proj"] = true ∧ ["proj"] <:+ ["sub", "proj"]
    ∧ ∀ e, e <:+ ["sub", "proj"] → hmEx e = true →
        e.length ≤ (["proj"] : List String).length :=
  (c8_root_locator hmEx ["sub", "proj"]).1 ["proj"] rfl

/-! ### C9: wasm target availability check -/

/-- C9: given a queried sysroot, the target check succeeds without
invoking the installer whenever the target directory is present; when
absent, the installer is invoked exactly when the sysroot path contains
`rustup`, and then the step fails exactly when that invocation fails
(wrapping its error); an unmanaged sysroot succeeds without any install. -/
theorem c9_wasm_target_check :
    (∀ sysroot cmdResult,
        step_check_for_wasm_target sysroot true cmdResult = (.ok (), false))
    ∧ (∀ sysroot cmdResult, strContainsB sysroot "rustup" = false →
        step_check_for_wasm_target sysroot false cmdResult = (.ok (), false))
    ∧ (∀ sysroot, strContainsB sysroot "rustup" = true →
        step_check_for_wasm_target sysroot false (.ok ()) = (.ok (), true)
        ∧ ∀ e, step_check_for_wasm_target sysroot false (.error e)
            = (.error (rustupFailMsg e), true)) := by
  refine ⟨fun sysroot cmdResult => rfl, ?_, ?_⟩
  · intro sysroot cmdResult h
    simp [step_check_for_wasm_target, h]
  · intro sysroot h
    constructor
    · simp [step_check_for_wasm_target, h, rustup_add_wasm_target]
    · intro e
      simp [step_check_for_wasm_target, h, rustup_add_wasm_target]

/-- C9 witness: a rustup-managed sysroot triggers the installer (and
succeeds when the installer succeeds); an unmanaged sysroot skips it. -/
theorem c9_witness :
    step_check_for_wasm_target "/root/.rustup/toolchains/nightly" false (.ok ())
      = (.ok (), true)
    ∧ step_check_for_wasm_target "/usr/lib/rust" false (.ok ()) = (.ok (), false) :=
  ⟨(c9_wasm_target_check.2.2 "/root/.rustup/toolchains/nightly" (by decide)).1,
   c9_wasm_target_check.2.1 "/usr/lib/rust" (.ok ()) (by decide)⟩

/-! ### C10: manifest reader panics on read failures -/

/-- C10: the manifest reader panics (rather than returning an error) when
the manifest path is not UTF-8 representable or when the file read fails
(including non-UTF-8 content); only a failure of the toml parse itself is
returned as the wrapped manifest-parse error, and a successful parse is
returned as-is. -/
theorem c10_manifest_reader_panics :
    (∀ readResult tomlParse,
        pasre_cargo_config false readResult tomlParse = .panicked)
    ∧ (∀ tomlParse, pasre_cargo_config true none tomlParse = .panicked)
    ∧ (∀ tomlParse content e, tomlParse content = .error e →
        pasre_cargo_config true (some content) tomlParse
          = .err ("parse cargo toml failed, error = " ++ e))
    ∧ (∀ tomlParse content cfg, tomlParse content = .ok cfg →
        pasre_cargo_config true (some content) tomlParse = .ok cfg) := by
  refine ⟨fun readResult tomlParse => rfl, fun tomlParse => rfl, ?_, ?_⟩
  · intro tomlParse content e h
    simp [pasre_cargo_config, h]
  · intro tomlParse content cfg h
    simp [pasre_cargo_config, h]

/-- A toml parser that always fails, for the witness. -/
def constFailParse : String → Except String CargoConfig := fun _ => .error "bad"

/-- C10 witness: a parse failure is returned as the wrapped error. -/
theorem c10_witness :
    pasre_cargo_config true (some "not toml") constFailParse
      = .err ("parse cargo toml failed, error = " ++ "bad") :=
  c10_manifest_reader_panics.2.2.1 constFailParse "not toml" "bad" rfl

end IrohaWasmPack
